import Mathlib

/-!
Shallow embedding of the lead query pipeline of the ConvertFlow lead-management
interface, translated from `src/hooks/useLeads.ts` and the type definitions in
`src/types/lead.ts`.  The pipeline filters an in-memory list of leads, sorts the
survivors with a stable comparator, and slices the result into fixed-size pages;
a controller state records the query parameters and the actions that mutate them.
-/

namespace ConvertFlow

/-- Lead record, from the `Lead` interface in `src/types/lead.ts`.  `source` and
`status` are string unions in TypeScript and are modelled as their runtime string
values; `score` is an integer by convention; `createdAt` and `updatedAt` are the
numeric instants returned by `Date.prototype.getTime`. -/
structure Lead where
  id : String
  name : String
  email : String
  phone : String
  company : String
  source : String
  status : String
  score : Int
  tags : List String
  createdAt : Int
  updatedAt : Int
  notes : Option String
deriving DecidableEq, Repr

/-- Filter state of the hook: the three `useState` fields `searchQuery`,
`selectedSources`, `selectedTags` of `useLeads`.  (The `FilterState` interface
of `src/types/lead.ts` also declares a `scoreRange`, but the hook never reads
it, so it plays no part in the pipeline.) -/
structure FilterState where
  searchQuery : String
  sources : List String
  tags : List String
deriving DecidableEq, Repr

/-- JavaScript `String.prototype.includes`: substring containment. -/
def jsIncludes (s pat : String) : Bool :=
  decide (pat.data <:+: s.data)

/-- JavaScript `String.prototype.toLowerCase`: lowercases each character, the
same map over the character list that `String.toLower` performs (spelled out
on the list so that concrete instances reduce). -/
def jsToLower (s : String) : String :=
  String.mk (s.data.map Char.toLower)

/-- Search matcher from `useLeads.ts` lines 64-70: the query is lowercased once,
then compared against the lowercased name, email and company, and against the
phone as stored. -/
def matchesSearch (searchQuery : String) (lead : Lead) : Bool :=
  let query := jsToLower searchQuery
  jsIncludes (jsToLower lead.name) query ||
    jsIncludes (jsToLower lead.email) query ||
    jsIncludes (jsToLower lead.company) query ||
    jsIncludes lead.phone query

/-- Filter predicate from `useLeads.ts` lines 62-87, with the same early-return
structure: a nonempty search query that fails `matchesSearch` rejects the lead,
then a nonempty source set not containing the lead's source rejects it, then a
nonempty tag set sharing no tag with the lead rejects it; otherwise it passes. -/
def leadMatches (fs : FilterState) (lead : Lead) : Bool :=
  if fs.searchQuery != "" && !(matchesSearch fs.searchQuery lead) then false
  else if decide (fs.sources.length > 0) && !(fs.sources.contains lead.source) then false
  else if decide (fs.tags.length > 0) && !(fs.tags.any fun tag => lead.tags.contains tag) then false
  else true

/-- The FilterEngine: `initialLeads.filter(...)` from `useLeads.ts` line 62. -/
def filterEngine (fs : FilterState) (leads : List Lead) : List Lead :=
  leads.filter (leadMatches fs)

/-- Search dimension as the specification words it: empty query always passes,
otherwise the lowercased query must be contained in the lowercased name, email
or company, or the (lowercased) query contained in the phone as stored. -/
def searchDimension (fs : FilterState) (lead : Lead) : Bool :=
  fs.searchQuery == "" ||
    (jsIncludes (jsToLower lead.name) (jsToLower fs.searchQuery) ||
      jsIncludes (jsToLower lead.email) (jsToLower fs.searchQuery) ||
      jsIncludes (jsToLower lead.company) (jsToLower fs.searchQuery) ||
      jsIncludes lead.phone (jsToLower fs.searchQuery))

/-- Source dimension as the specification words it: empty set passes everything,
otherwise the lead's source must be a member. -/
def sourceDimension (fs : FilterState) (lead : Lead) : Bool :=
  fs.sources.isEmpty || fs.sources.contains lead.source

/-- Tag dimension as the specification words it: empty set passes everything,
otherwise the lead must share at least one tag with the selected set. -/
def tagDimension (fs : FilterState) (lead : Lead) : Bool :=
  fs.tags.isEmpty || fs.tags.any (fun tag => lead.tags.contains tag)

lemma reject_chain (a b c x y z : Bool) :
    (if a && !x then false else if b && !y then false else if c && !z then false else true) =
      ((!a || x) && (!b || y) && (!c || z)) := by
  cases a <;> cases b <;> cases c <;> cases x <;> cases y <;> cases z <;> rfl

lemma isEmpty_eq_not_length_pos {α : Type} (l : List α) :
    l.isEmpty = !decide (l.length > 0) := by
  cases l <;> simp

lemma leadMatches_eq_dimensions (fs : FilterState) (lead : Lead) :
    leadMatches fs lead =
      (searchDimension fs lead && sourceDimension fs lead && tagDimension fs lead) := by
  unfold leadMatches searchDimension sourceDimension tagDimension matchesSearch
  simp only [bne]
  rw [reject_chain, isEmpty_eq_not_length_pos, isEmpty_eq_not_length_pos]
  simp only [Bool.not_not]

/-- Sortable fields, from `SortField` in `src/types/lead.ts`. -/
inductive SortField where
  | name
  | createdAt
  | score
deriving DecidableEq, Repr

/-- Sort directions, from `SortDirection` in `src/types/lead.ts`. -/
inductive SortDirection where
  | asc
  | desc
deriving DecidableEq, Repr

/-- Sort state, from `SortState` in `src/types/lead.ts`. -/
structure SortState where
  field : SortField
  direction : SortDirection
deriving DecidableEq, Repr

/-- Comparator tail of `useLeads.ts` lines 115-117: once the two sort keys are
computed, `aVal < bVal` yields −1 ascending and 1 descending, `aVal > bVal`
yields 1 ascending and −1 descending, and equal keys yield 0. -/
def directionalCompare {α : Type} [LinearOrder α] (aVal bVal : α) (dir : SortDirection) : Int :=
  if aVal < bVal then (if dir = SortDirection.asc then -1 else 1)
  else if aVal > bVal then (if dir = SortDirection.asc then 1 else -1)
  else 0

/-- Comparator of `useLeads.ts` lines 94-118: key selection by sort field
(lowercased name as a string, score as a number, `createdAt.getTime()` as a
number), then the directional comparison. -/
def leadCompare (st : SortState) (a b : Lead) : Int :=
  match st.field with
  | SortField.name => directionalCompare (jsToLower a.name) (jsToLower b.name) st.direction
  | SortField.score => directionalCompare a.score b.score st.direction
  | SortField.createdAt => directionalCompare a.createdAt b.createdAt st.direction

/-- The non-strict order induced by the comparator: `a` may come before `b`. -/
def leadLE (st : SortState) (a b : Lead) : Bool :=
  decide (leadCompare st a b ≤ 0)

/-- The SortEngine: `[...filteredLeads].sort(comparator)` from `useLeads.ts`
lines 91-121.  JavaScript `Array.prototype.sort` is specification-mandated to
be stable, and for a consistent comparator a stable sort is uniquely
determined, so it is modelled by the stable `List.mergeSort` under the order
induced by the comparator. -/
def sortEngine (st : SortState) (leads : List Lead) : List Lead :=
  leads.mergeSort (leadLE st)

lemma directionalCompare_asc_le_zero {α : Type} [LinearOrder α] (a b : α) :
    directionalCompare a b SortDirection.asc ≤ 0 ↔ a ≤ b := by
  rcases lt_trichotomy a b with h | h | h
  · simp [directionalCompare, h, h.le]
  · subst h
    simp [directionalCompare]
  · simp [directionalCompare, h, h.not_lt, not_le.mpr h]

lemma directionalCompare_desc_le_zero {α : Type} [LinearOrder α] (a b : α) :
    directionalCompare a b SortDirection.desc ≤ 0 ↔ b ≤ a := by
  rcases lt_trichotomy a b with h | h | h
  · simp [directionalCompare, h, h.not_lt, not_le.mpr h]
  · subst h
    simp [directionalCompare]
  · simp [directionalCompare, h, h.not_lt, h.le]

lemma leadLE_total (st : SortState) (a b : Lead) :
    leadLE st a b || leadLE st b a := by
  obtain ⟨f, d⟩ := st
  cases f <;> cases d <;>
    simp only [leadLE, leadCompare, Bool.or_eq_true, decide_eq_true_eq,
      directionalCompare_asc_le_zero, directionalCompare_desc_le_zero] <;>
    exact le_total _ _

lemma leadLE_trans (st : SortState) (a b c : Lead) :
    leadLE st a b → leadLE st b c → leadLE st a c := by
  obtain ⟨f, d⟩ := st
  cases f <;> cases d <;>
    simp only [leadLE, leadCompare, decide_eq_true_eq,
      directionalCompare_asc_le_zero, directionalCompare_desc_le_zero] <;>
    first
      | exact fun h h' => le_trans h h'
      | exact fun h h' => le_trans h' h

/-- View modes of the hook: `'table' | 'card'`. -/
inductive ViewMode where
  | table
  | card
deriving DecidableEq, Repr

/-- Page size, `ITEMS_PER_PAGE = 10` from `useLeads.ts` line 9. -/
def ITEMS_PER_PAGE : Nat := 10

/-- Mutable state owned by `useLeads` (lines 44-58): the seven `useState`
fields.  `currentPage` is a page number, a positive integer in every state the
hook's callers produce. -/
structure LeadsState where
  searchQuery : String
  selectedSources : List String
  selectedTags : List String
  sortField : SortField
  sortDirection : SortDirection
  viewMode : ViewMode
  currentPage : Nat
deriving DecidableEq, Repr

/-- Initial state of the hook (lines 46-58): empty query, no selected sources
or tags, sort by `createdAt` descending, table view, page 1. -/
def initialState : LeadsState :=
  { searchQuery := ""
    selectedSources := []
    selectedTags := []
    sortField := SortField.createdAt
    sortDirection := SortDirection.desc
    viewMode := ViewMode.table
    currentPage := 1 }

/-- Filter state carried by a controller state. -/
def filterStateOf (s : LeadsState) : FilterState :=
  { searchQuery := s.searchQuery, sources := s.selectedSources, tags := s.selectedTags }

/-- Sort state carried by a controller state. -/
def sortStateOf (s : LeadsState) : SortState :=
  { field := s.sortField, direction := s.sortDirection }

/-- Derived `filteredLeads` (lines 61-88). -/
def filteredLeads (initialLeads : List Lead) (s : LeadsState) : List Lead :=
  filterEngine (filterStateOf s) initialLeads

/-- Derived `sortedLeads` (lines 91-121). -/
def sortedLeads (initialLeads : List Lead) (s : LeadsState) : List Lead :=
  sortEngine (sortStateOf s) (filteredLeads initialLeads s)

/-- Derived `paginatedLeads` (lines 124-128): `slice(startIndex, endIndex)`
with `startIndex = (currentPage - 1) * ITEMS_PER_PAGE` and
`endIndex = startIndex + ITEMS_PER_PAGE`. -/
def paginatedLeads (initialLeads : List Lead) (s : LeadsState) : List Lead :=
  let startIndex := (s.currentPage - 1) * ITEMS_PER_PAGE
  let endIndex := startIndex + ITEMS_PER_PAGE
  (((sortedLeads initialLeads s).drop startIndex).take (endIndex - startIndex))

/-- Derived `totalPages` (line 130): `Math.ceil(sortedLeads.length / ITEMS_PER_PAGE)`,
which on natural numbers is the rounded-up quotient. -/
def totalPages (initialLeads : List Lead) (s : LeadsState) : Nat :=
  ((sortedLeads initialLeads s).length + ITEMS_PER_PAGE - 1) / ITEMS_PER_PAGE

/-- Action `toggleSource` (lines 133-142): remove the source if present
(JavaScript `filter(s => s !== source)`), append it otherwise, and reset the
page to 1. -/
def toggleSource (source : String) (s : LeadsState) : LeadsState :=
  { s with
    selectedSources :=
      if s.selectedSources.contains source then
        s.selectedSources.filter (fun x => x != source)
      else
        s.selectedSources ++ [source]
    currentPage := 1 }

/-- Action `toggleTag` (lines 145-154): same toggle on the tag set, and reset
the page to 1. -/
def toggleTag (tag : String) (s : LeadsState) : LeadsState :=
  { s with
    selectedTags :=
      if s.selectedTags.contains tag then
        s.selectedTags.filter (fun x => x != tag)
      else
        s.selectedTags ++ [tag]
    currentPage := 1 }

/-- Action `setSearchQuery` (`handleSetSearchQuery`, lines 157-160): replace
the query and reset the page to 1. -/
def handleSetSearchQuery (query : String) (s : LeadsState) : LeadsState :=
  { s with searchQuery := query, currentPage := 1 }

/-- Action `setSortField` (`handleSetSortField`, lines 163-171): clicking the
current field toggles the direction; clicking another field selects it and
resets the direction to descending. -/
def handleSetSortField (field : SortField) (s : LeadsState) : LeadsState :=
  if s.sortField = field then
    { s with
      sortDirection :=
        if s.sortDirection = SortDirection.asc then SortDirection.desc
        else SortDirection.asc }
  else
    { s with sortField := field, sortDirection := SortDirection.desc }

/-- Action `setSortDirection` (line 37 / 208): direct override. -/
def setSortDirection (direction : SortDirection) (s : LeadsState) : LeadsState :=
  { s with sortDirection := direction }

/-- Action `setCurrentPage` (line 39 / 210): sets the page directly, with no
clamping against the page count. -/
def setCurrentPage (page : Nat) (s : LeadsState) : LeadsState :=
  { s with currentPage := page }

/-- Action `clearFilters` (lines 174-179). -/
def clearFilters (s : LeadsState) : LeadsState :=
  { s with
    searchQuery := ""
    selectedSources := []
    selectedTags := []
    currentPage := 1 }

/-- Action `resetPagination` (lines 182-184). -/
def resetPagination (s : LeadsState) : LeadsState :=
  { s with currentPage := 1 }

/-- C1: a lead appears in the filtered result iff it passes the search, source
and tag dimensions conjoined (empty query, empty source set and empty tag set
each pass everything; the lowercased query is matched as a substring of the
lowercased name, email or company, or of the phone as stored; the source must
be selected; at least one tag must be shared), and filtering preserves the
input order of the survivors (the result is a sublist of the input). -/
theorem filterEngine_eq_dimension_filter :
    ∀ (fs : FilterState) (leads : List Lead),
      filterEngine fs leads =
        leads.filter
          (fun lead => searchDimension fs lead && sourceDimension fs lead && tagDimension fs lead) ∧
      List.Sublist (filterEngine fs leads) leads := by
  intro fs leads
  refine ⟨?_, List.filter_sublist _⟩
  exact List.filter_congr (fun lead _ => leadMatches_eq_dimensions fs lead)

/-- C4: sorting never adds, drops or duplicates a lead — the sorted list is a
permutation of the filtered list, and hence carries the same multiset of
identifiers. -/
theorem sortedLeads_perm_filteredLeads :
    ∀ (initialLeads : List Lead) (s : LeadsState),
      List.Perm (sortedLeads initialLeads s) (filteredLeads initialLeads s) ∧
      List.Perm ((sortedLeads initialLeads s).map Lead.id)
        ((filteredLeads initialLeads s).map Lead.id) := by
  intro leads s
  have h : List.Perm (sortedLeads leads s) (filteredLeads leads s) :=
    List.mergeSort_perm (filteredLeads leads s) (leadLE (sortStateOf s))
  exact ⟨h, h.map Lead.id⟩

/-- C7: clicking the current sort field keeps the field and flips the
direction, so clicking it twice restores the original direction; clicking a
different field selects it with descending direction; neither case changes the
current page. -/
theorem handleSetSortField_spec :
    ∀ (s : LeadsState) (f : SortField),
      (handleSetSortField f s).currentPage = s.currentPage ∧
      (f = s.sortField →
        (handleSetSortField f s).sortField = s.sortField ∧
        (handleSetSortField f s).sortDirection =
          (if s.sortDirection = SortDirection.asc then SortDirection.desc
            else SortDirection.asc)) ∧
      (f ≠ s.sortField →
        (handleSetSortField f s).sortField = f ∧
        (handleSetSortField f s).sortDirection = SortDirection.desc) ∧
      (handleSetSortField s.sortField (handleSetSortField s.sortField s)).sortDirection =
        s.sortDirection := by
  intro s f
  by_cases h : s.sortField = f
  · cases hd : s.sortDirection <;> simp [handleSetSortField, h, hd, eq_comm]
  · cases hd : s.sortDirection <;>
      simp [handleSetSortField, h, hd, Ne.symm h]

/-- C8: each of the three filter-mutating actions resets the current page
to 1. -/
theorem filter_actions_reset_currentPage :
    ∀ (s : LeadsState) (query source tag : String),
      (handleSetSearchQuery query s).currentPage = 1 ∧
      (toggleSource source s).currentPage = 1 ∧
      (toggleTag tag s).currentPage = 1 := by
  intro s query source tag
  exact ⟨rfl, rfl, rfl⟩

/-- C9: clearing the filters empties the query, the source set and the tag
set, resets the page to 1, and leaves the sort field, sort direction and view
mode untouched. -/
theorem clearFilters_spec :
    ∀ s : LeadsState,
      (clearFilters s).searchQuery = "" ∧
      (clearFilters s).selectedSources = [] ∧
      (clearFilters s).selectedTags = [] ∧
      (clearFilters s).currentPage = 1 ∧
      (clearFilters s).sortField = s.sortField ∧
      (clearFilters s).sortDirection = s.sortDirection ∧
      (clearFilters s).viewMode = s.viewMode := by
  intro s
  exact ⟨rfl, rfl, rfl, rfl, rfl, rfl, rfl⟩

/-- C10: the hook starts with an empty query, no selected sources or tags
(so the filter passes every lead and the filtered list is the whole input),
sort by `createdAt` descending, and page 1. -/
theorem initialState_defaults :
    ∀ initialLeads : List Lead,
      initialState.searchQuery = "" ∧
      initialState.selectedSources = [] ∧
      initialState.selectedTags = [] ∧
      initialState.sortField = SortField.createdAt ∧
      initialState.sortDirection = SortDirection.desc ∧
      initialState.currentPage = 1 ∧
      filteredLeads initialLeads initialState = initialLeads := by
  intro leads
  refine ⟨rfl, rfl, rfl, rfl, rfl, rfl, ?_⟩
  unfold filteredLeads filterEngine
  rw [List.filter_eq_self]
  intro lead _
  rfl

/-- C3: the sort is stable — two leads that the selected comparator considers
equal (comparator value 0) and that occur in order in the filtered sequence
still occur in that order in the sorted sequence. -/
theorem sortedLeads_stable_on_ties :
    ∀ (initialLeads : List Lead) (s : LeadsState) (a b : Lead),
      leadCompare (sortStateOf s) a b = 0 →
      List.Sublist [a, b] (filteredLeads initialLeads s) →
      List.Sublist [a, b] (sortedLeads initialLeads s) := by
  intro leads s a b hcmp hsub
  have hab : leadLE (sortStateOf s) a b := by
    simp [leadLE, hcmp]
  exact List.pair_sublist_mergeSort (leadLE_trans (sortStateOf s))
    (leadLE_total (sortStateOf s)) hab hsub

/-- Sample lead used to instantiate the stability theorem. -/
def tieLeadA : Lead :=
  { id := "1", name := "Amy", email := "amy@example.com", phone := "111",
    company := "Aco", source := "email", status := "new", score := 80,
    tags := [], createdAt := 500, updatedAt := 500, notes := none }

/-- Second sample lead: same `createdAt` instant as `tieLeadA`, so the default
comparator ties the two. -/
def tieLeadB : Lead :=
  { id := "2", name := "Bob", email := "bob@example.com", phone := "222",
    company := "Bco", source := "sms", status := "new", score := 60,
    tags := [], createdAt := 500, updatedAt := 501, notes := none }

theorem sortedLeads_stable_on_ties_witness :
    leadCompare (sortStateOf initialState) tieLeadA tieLeadB = 0 ∧
    List.Sublist [tieLeadA, tieLeadB] (filteredLeads [tieLeadA, tieLeadB] initialState) ∧
    List.Sublist [tieLeadA, tieLeadB] (sortedLeads [tieLeadA, tieLeadB] initialState) :=
  ⟨by decide, by decide,
    sortedLeads_stable_on_ties [tieLeadA, tieLeadB] initialState tieLeadA tieLeadB
      (by decide) (by decide)⟩

/-- C6: setting an out-of-range page succeeds, stores exactly the requested
page number (no clamping), and makes the visible page empty. -/
theorem setCurrentPage_out_of_range_empty :
    ∀ (initialLeads : List Lead) (s : LeadsState) (p : Nat),
      1 ≤ p →
      (sortedLeads initialLeads s).length ≤ (p - 1) * ITEMS_PER_PAGE →
      (setCurrentPage p s).currentPage = p ∧
      paginatedLeads initialLeads (setCurrentPage p s) = [] := by
  intro leads s p hp hlen
  refine ⟨rfl, ?_⟩
  unfold paginatedLeads
  have hs : sortedLeads leads (setCurrentPage p s) = sortedLeads leads s := rfl
  have hc : (setCurrentPage p s).currentPage = p := rfl
  simp only [hs, hc]
  rw [List.drop_eq_nil_of_le hlen]
  simp

theorem setCurrentPage_out_of_range_empty_witness :
    1 ≤ 2 ∧
    (sortedLeads [] initialState).length ≤ (2 - 1) * ITEMS_PER_PAGE ∧
    (setCurrentPage 2 initialState).currentPage = 2 ∧
    paginatedLeads [] (setCurrentPage 2 initialState) = [] := by
  have hlen : (sortedLeads [] initialState).length ≤ (2 - 1) * ITEMS_PER_PAGE := by
    simp [sortedLeads, sortEngine, filteredLeads, filterEngine]
  exact ⟨by decide, hlen,
    setCurrentPage_out_of_range_empty [] initialState 2 (by decide) hlen⟩

lemma range_flatMap_take_drop {α : Type} (n k : Nat) (l : List α) :
    (List.range n).flatMap (fun i => (l.drop (i * k)).take k) = l.take (n * k) := by
  induction n with
  | zero => simp
  | succ n ih =>
    rw [List.range_succ, List.flatMap_append, ih]
    simp only [List.flatMap_cons, List.flatMap_nil, List.append_nil]
    rw [List.take_drop]
    have h1 : List.take (n * k) l = List.take (n * k) (List.take (n * k + k) l) := by
      rw [List.take_take, Nat.min_eq_left (Nat.le_add_right _ _)]
    rw [h1, List.take_append_drop]
    congr 1
    ring

lemma ceil_div_ten (n : Nat) : (n + 10 - 1) / 10 = Nat.ceil ((n : ℚ) / 10) := by
  rcases Nat.eq_zero_or_pos n with h | h
  · subst h
    norm_num
  · symm
    rw [Nat.ceil_eq_iff (by omega : (n + 10 - 1) / 10 ≠ 0)]
    constructor
    · rw [lt_div_iff₀ (by norm_num : (0:ℚ) < 10)]
      have hfact : ((n + 10 - 1) / 10 - 1) * 10 < n := by omega
      exact_mod_cast hfact
    · rw [div_le_iff₀ (by norm_num : (0:ℚ) < 10)]
      have hfact : n ≤ ((n + 10 - 1) / 10) * 10 := by omega
      exact_mod_cast hfact

/-- C2: `totalPages` is the rounded-up quotient of the sorted length by the
page size 10 (hence 0 on an empty list), and concatenating the visible pages
1 through `totalPages` reconstructs the sorted list exactly, with nothing
duplicated or omitted. -/
theorem totalPages_ceil_and_pages_reconstruct :
    ∀ (initialLeads : List Lead) (s : LeadsState),
      totalPages initialLeads s = Nat.ceil (((sortedLeads initialLeads s).length : ℚ) / 10) ∧
      (sortedLeads initialLeads s = [] → totalPages initialLeads s = 0) ∧
      (List.range (totalPages initialLeads s)).flatMap
          (fun i => paginatedLeads initialLeads (setCurrentPage (i + 1) s)) =
        sortedLeads initialLeads s := by
  intro leads s
  refine ⟨ceil_div_ten _, ?_, ?_⟩
  · intro h
    simp [totalPages, h, ITEMS_PER_PAGE]
  · have hpage : ∀ i : Nat,
        paginatedLeads leads (setCurrentPage (i + 1) s) =
          ((sortedLeads leads s).drop (i * ITEMS_PER_PAGE)).take ITEMS_PER_PAGE := by
      intro i
      have hs : sortedLeads leads (setCurrentPage (i + 1) s) = sortedLeads leads s := rfl
      have hc : (setCurrentPage (i + 1) s).currentPage = i + 1 := rfl
      simp only [paginatedLeads, hs, hc, Nat.add_sub_cancel, Nat.add_sub_cancel_left]
    simp only [hpage]
    rw [range_flatMap_take_drop]
    apply List.take_of_length_le
    unfold totalPages ITEMS_PER_PAGE
    omega

/-- Lead whose phone contains uppercase letters and whose other searchable
fields cannot match the query below. -/
def phoneLead : Lead :=
  { id := "9", name := "x", email := "x", phone := "1-800-CALL-NOW",
    company := "x", source := "manual", status := "new", score := 0,
    tags := [], createdAt := 0, updatedAt := 0, notes := none }

/-- C5 counterexample: the claim says the phone matches exactly when the raw
(untransformed) search query is a substring of the phone.  For the query
"CALL" and the phone "1-800-CALL-NOW" the raw query is a substring, yet the
code lowercases the query to "call" before the containment test, so the
search dimension rejects the lead (its name, email and company cannot match
either). -/
theorem phone_raw_substring_counterexample :
    matchesSearch "CALL" phoneLead = false ∧ jsIncludes phoneLead.phone "CALL" = true := by
  constructor
  · decide
  · decide

/-- C5 amended: when none of the lowercased name, email and company contains
the lowercased query, a lead passes the search dimension iff the LOWERCASED
query is a substring of the phone as stored (the phone itself undergoes no
case transformation). -/
theorem phone_matches_lowercased_query :
    ∀ (lead : Lead) (q : String),
      q ≠ "" →
      jsIncludes (jsToLower lead.name) (jsToLower q) = false →
      jsIncludes (jsToLower lead.email) (jsToLower q) = false →
      jsIncludes (jsToLower lead.company) (jsToLower q) = false →
      (matchesSearch q lead = true ↔ jsIncludes lead.phone (jsToLower q) = true) := by
  intro lead q _ h1 h2 h3
  unfold matchesSearch
  simp [h1, h2, h3]

/-- Lead 1 of the mock data (`src/data/mockLeads`), used by the documented
scenario: the query "555-123" does not match the phone "(555) 123-4567". -/
def sarahLead : Lead :=
  { id := "1", name := "Sarah Johnson", email := "sarah.johnson@example.com",
    phone := "(555) 123-4567", company := "Tech Startup Inc",
    source := "web_form", status := "new", score := 85,
    tags := ["high-priority", "enterprise"], createdAt := 1705276800000,
    updatedAt := 1705536000000, notes := some "Interested in booking a demo" }

theorem phone_matches_lowercased_query_witness :
    (("555-123" : String) ≠ "" ∧
      jsIncludes (jsToLower sarahLead.name) (jsToLower "555-123") = false ∧
      jsIncludes (jsToLower sarahLead.email) (jsToLower "555-123") = false ∧
      jsIncludes (jsToLower sarahLead.company) (jsToLower "555-123") = false) ∧
    matchesSearch "555-123" sarahLead = false := by
  refine ⟨⟨by decide, by decide, by decide, by decide⟩, ?_⟩
  have h := phone_matches_lowercased_query sarahLead "555-123"
    (by decide) (by decide) (by decide) (by decide)
  have hf : jsIncludes sarahLead.phone (jsToLower "555-123") = false := by decide
  have hne : matchesSearch "555-123" sarahLead ≠ true := by
    intro hm
    have hx := h.mp hm
    rw [hf] at hx
    exact absurd hx (by decide)
  exact Bool.eq_false_iff.mpr hne

end ConvertFlow
